import Mathlib

/-!
Verification of the request-sending core of the LyricsGenius client library
(`lyricsgenius/api/base.py`): the `Sender._make_request` operation and the
`check_token` decorator.

The embedding models Python values that can appear in parsed JSON bodies and
keyword arguments as an inductive `Json` type, session headers as an
association list, and the network as an explicit `ReqOutcome` input (either a
transport timeout or a response with a status code, an optional parsed JSON
body — `none` meaning the body is not parsable as JSON — and the error text
that `raise_for_status` would produce for an error status).  Python exceptions
become an explicit `PyError` type and `_make_request` returns an `MRResult`
recording the returned value or raised exception, the final session headers,
and the duration passed to `time.sleep` when that call is reached.
-/

/-- Python/JSON values as they appear in parsed response bodies and in
keyword arguments (`None`, booleans, numbers, strings, lists, dicts). -/
inductive Json where
  | null : Json
  | bool (b : Bool) : Json
  | num (n : Int) : Json
  | str (s : String) : Json
  | arr (elems : List Json) : Json
  | obj (kvs : List (String × Json)) : Json

/-- Python exceptions that the modelled code can raise. -/
inductive PyError where
  | timeout (msg : String)
  | httpError (status : Nat) (msg : String)
  | assertionError (msg : String)
  | keyError (key : String)
  | typeError
  | valueError
  | attributeError
  | tokenRequired (msg : Option String)
deriving DecidableEq

/-- Python truthiness of a `Json` value (`None`, `False`, `0`, `""`, `[]`
and an empty dict are falsy, everything else truthy). -/
def Json.pyTruthy : Json → Bool
  | .null => false
  | .bool b => b
  | .num n => n != 0
  | .str s => s != ""
  | .arr elems => !elems.isEmpty
  | .obj kvs => !kvs.isEmpty

mutual

/-- Python `str()` of a value, as used by `'\x7b\x7d'.format(description)`. -/
def Json.pyStr : Json → String
  | .null => "None"
  | .bool b => if b then "True" else "False"
  | .num n => toString n
  | .str s => s
  | .arr elems => "[" ++ Json.pyStrList elems ++ "]"
  | .obj kvs => "\x7b" ++ Json.pyStrObj kvs ++ "\x7d"

/-- Python `repr()` of a value, used for elements inside containers. -/
def Json.pyRepr : Json → String
  | .null => "None"
  | .bool b => if b then "True" else "False"
  | .num n => toString n
  | .str s => "'" ++ s ++ "'"
  | .arr elems => "[" ++ Json.pyStrList elems ++ "]"
  | .obj kvs => "\x7b" ++ Json.pyStrObj kvs ++ "\x7d"

/-- Comma-separated reprs of list elements. -/
def Json.pyStrList : List Json → String
  | [] => ""
  | [x] => Json.pyRepr x
  | x :: xs => Json.pyRepr x ++ ", " ++ Json.pyStrList xs

/-- Comma-separated `'key': repr(value)` pairs of a dict. -/
def Json.pyStrObj : List (String × Json) → String
  | [] => ""
  | [(k, v)] => "'" ++ k ++ "': " ++ Json.pyRepr v
  | (k, v) :: kvs => "'" ++ k ++ "': " ++ Json.pyRepr v ++ ", " ++ Json.pyStrObj kvs

end

/-- Python `d.get(key)`: `AttributeError` when the receiver is not a dict,
the stored value when the key is present, `None` otherwise. -/
def Json.pyGet : Json → String → Except PyError Json
  | .obj kvs, key => .ok ((kvs.lookup key).getD .null)
  | _, _ => .error .attributeError

/-- Python `v[key]` with a string key: the stored value or `KeyError` for a
dict, `TypeError` for every other receiver. -/
def Json.pySubscript : Json → String → Except PyError Json
  | .obj kvs, key =>
      match kvs.lookup key with
      | some v => .ok v
      | none => .error (.keyError key)
  | _, _ => .error .typeError

/-- Whether `pat` occurs as a substring of `s` (used for Python
`key in someString`). -/
def strContainsSub (s pat : String) : Bool :=
  2 ≤ (s.splitOn pat).length

/-- Python `e == key` for a string `key`: only an equal string compares
equal (no JSON value of another kind is `==` to a string in Python). -/
def Json.pyEqStr : Json → String → Bool
  | .str s, key => s == key
  | _, _ => false

/-- Python `key in v`: key membership for a dict, element membership for a
list, substring test for a string, `TypeError` for non-iterable values. -/
def Json.pyContains : Json → String → Except PyError Bool
  | .obj kvs, key => .ok (kvs.any (fun kv => kv.1 == key))
  | .arr elems, key => .ok (elems.any (fun e => e.pyEqStr key))
  | .str s, key => .ok (strContainsSub s key)
  | _, _ => .error .typeError

/-- Session headers: a Python dict from header names to string values. -/
abbrev Headers := List (String × String)

/-- Python `d.pop(key, None)` restricted to its effect on the dict:
remove the key. -/
def Headers.eraseKey (h : Headers) (key : String) : Headers :=
  h.filter (fun kv => kv.1 ≠ key)

/-- Python `d[key] = v`: replace the value in place if the key is present,
append the pair otherwise. -/
def Headers.setKey : Headers → String → String → Headers
  | [], key, v => [(key, v)]
  | (k', v') :: rest, key, v =>
      if k' = key then (key, v) :: rest
      else (k', v') :: Headers.setKey rest key v

/-- The outcome of `self._session.request(...)` followed by
`response.raise_for_status()`: a transport timeout carrying `str(e)` of the
underlying exception, or a response with a status code, the parse result of
its body (`none` when `response.json()` would fail) and the message
`raise_for_status` puts in its `HTTPError` for an error status. -/
inductive ReqOutcome where
  | timeout (msg : String)
  | response (status : Nat) (body : Option Json) (errText : String)

/-- The value `_make_request` returns on success: a parsed JSON payload on
the 200 path, or the literal integer 204 on the 204 path. -/
inductive PyRet where
  | obj (j : Json)
  | int (n : Nat)

/-- The state and configuration of a `Sender` that `_make_request` reads:
the session headers and the constructor arguments. -/
structure Sender where
  headers : Headers
  accessToken : Option String
  responseFormat : String
  timeout : ℚ
  sleepTime : ℚ

/-- `Sender.__init__`: fixed `application` and `User-Agent` headers, plus a
`Bearer` `authorization` header when an access token is given. -/
def Sender.init (access_token : Option String) (response_format : String)
    (timeout : ℚ) (sleep_time : ℚ) : Sender :=
  let base : Headers :=
    [("application", "LyricsGenius"),
     ("User-Agent", "https://github.com/johnwmillr/LyricsGenius")]
  { headers :=
      match access_token with
      | some tok => Headers.setKey base "authorization" ("Bearer " ++ tok)
      | none => base
    accessToken := access_token
    responseFormat := response_format.toLower
    timeout := timeout
    sleepTime := sleep_time }

/-- `Sender._SLEEP_MIN`: the fixed minimum wait between API calls. -/
def SLEEP_MIN : ℚ := 1/5

/-- The result of one `_make_request` call: the returned value or raised
exception, the session headers after the call, and the duration passed to
`time.sleep` when that statement was reached. -/
structure MRResult where
  result : Except PyError PyRet
  headers : Headers
  slept : Option ℚ

/-- The `description = res['meta']['message'] if res.get('meta') else
res.get('error_description')` step of the `HTTPError` handler. -/
def extractDescription (res : Json) : Except PyError Json :=
  match res.pyGet "meta" with
  | .error e => .error e
  | .ok m =>
      if m.pyTruthy then
        match res.pySubscript "meta" with
        | .error e => .error e
        | .ok mm => mm.pySubscript "message"
      else
        res.pyGet "error_description"

/-- `Sender._make_request`: root selection with transient removal of the
`authorization` header on the public path, error translation for timeouts
and HTTP error statuses, header restoration and rate-limit sleep on the
non-raising path, and envelope unwrapping of the success body. -/
def Sender.makeRequest (s : Sender) (public_api : Bool) (outcome : ReqOutcome) :
    MRResult :=
  let header : Option String :=
    if public_api then s.headers.lookup "authorization" else none
  let headers1 : Headers :=
    if public_api then Headers.eraseKey s.headers "authorization" else s.headers
  match outcome with
  | .timeout msg =>
      { result := .error (.timeout ("Request timed out:\n" ++ msg))
        headers := headers1
        slept := none }
  | .response status body errText =>
      if 400 ≤ status ∧ status < 600 then
        -- `response.raise_for_status()` raised; run the `except HTTPError` handler.
        match body with
        | none =>
            -- `e.response.json()` fails on an unparsable body.
            { result := .error .valueError, headers := headers1, slept := none }
        | some res =>
            match extractDescription res with
            | .error e => { result := .error e, headers := headers1, slept := none }
            | .ok desc =>
                let err := errText ++
                  (if desc.pyTruthy then "\n" ++ desc.pyStr else "")
                { result := .error (.httpError status err)
                  headers := headers1
                  slept := none }
      else
        -- `if header:` restoration, then the rate-limit sleep.
        let headers2 : Headers :=
          match header with
          | some v => if v ≠ "" then Headers.setKey headers1 "authorization" v else headers1
          | none => headers1
        let slept : Option ℚ := some (max SLEEP_MIN s.sleepTime)
        if status = 200 then
          match body with
          | none => { result := .error .valueError, headers := headers2, slept := slept }
          | some res =>
              match res.pyContains "response" with
              | .error e => { result := .error e, headers := headers2, slept := slept }
              | .ok true =>
                  match res.pySubscript "response" with
                  | .ok v => { result := .ok (.obj v), headers := headers2, slept := slept }
                  | .error e => { result := .error e, headers := headers2, slept := slept }
              | .ok false =>
                  { result := .ok (.obj res), headers := headers2, slept := slept }
        else if status = 204 then
          { result := .ok (.int 204), headers := headers2, slept := slept }
        else
          { result := .error (.assertionError
              "Response status code was neither 200, nor 204!")
            headers := headers2
            slept := slept }

/-- The module-level `public_api_msg` string. -/
def public_api_msg : String :=
  "Using this method with the developers API needs an access token." ++
  " Get an access token or" ++
  " use the public API by setting" ++
  " public_api=True in method parameters."

/-- What the `check_token` wrapper does on one call: raise a
`TokenRequiredError` (with or without a message) or invoke the wrapped
operation. -/
inductive GuardResult where
  | raised (msg : Option String)
  | invoked
deriving DecidableEq

/-- Python `v is False`: identity with the `False` singleton, true exactly
for the boolean `False` and for no other value. -/
def Json.isPyFalse : Json → Bool
  | .bool false => true
  | _ => false

/-- The `check_token` decorator's wrapper, as a function of the client's
access token, whether `public_api` occurs among the wrapped operation's
declared parameter names (`func.__code__.co_varnames`), and the keyword
arguments of the call.  `kwargs.get("public_api", False) is False` is the
identity test against the `False` singleton, so only the exact boolean
`False` (or an absent key) triggers the error. -/
def check_token (access_token : Option String) (hasPublicApiParam : Bool)
    (kwargs : List (String × Json)) : GuardResult :=
  match access_token with
  | none =>
      if hasPublicApiParam then
        if ((kwargs.lookup "public_api").getD (Json.bool false)).isPyFalse then
          GuardResult.raised (some public_api_msg)
        else
          GuardResult.invoked
      else
        GuardResult.raised none
  | some _ => GuardResult.invoked

/-- A concrete sender used by closed-form witnesses and counterexamples:
constructed with an access token, so its session carries an
`authorization` header. -/
def senderEx : Sender := Sender.init (some "tok") "plain" 5 (1/2)


/-! ## Helper lemmas -/

/-- A `Bearer`-prefixed header value is never the empty string, so the
`if header:` truthiness test always passes for a header set by the
constructor. -/
theorem bearer_ne_empty (tok : String) : ("Bearer " ++ tok) ≠ "" := by
  intro h
  have h2 : ("Bearer " ++ tok).data = "".data := congrArg String.data h
  rw [String.data_append] at h2
  exact absurd (List.append_eq_nil.mp h2).1 (by decide)

/-- If a key is bound in an association list, the membership scan used by
Python `in` finds it. -/
theorem lookup_some_any {β : Type} (kvs : List (String × β)) (k : String) (v : β)
    (h : kvs.lookup k = some v) : kvs.any (fun kv => kv.1 == k) = true := by
  induction kvs with
  | nil => simp [List.lookup] at h
  | cons hd tl ih =>
      rw [List.lookup] at h
      rcases hk : (k == hd.1) with _ | _
      · rw [hk] at h
        have h' : List.lookup k tl = some v := h
        simp [List.any_cons, ih h']
      · have he : hd.1 = k := (eq_of_beq hk).symm
        simp [List.any_cons, he]

/-- If a key is unbound in an association list, the membership scan used by
Python `in` misses it. -/
theorem lookup_none_any {β : Type} (kvs : List (String × β)) (k : String)
    (h : kvs.lookup k = none) : kvs.any (fun kv => kv.1 == k) = false := by
  induction kvs with
  | nil => rfl
  | cons hd tl ih =>
      rw [List.lookup] at h
      rcases hk : (k == hd.1) with _ | _
      · rw [hk] at h
        have h' : List.lookup k tl = none := h
        have hne : ¬(hd.1 = k) := fun he => by simp [he] at hk
        simp [List.any_cons, ih h', hne]
      · rw [hk] at h
        exact absurd h (by simp)

/-- Every `_make_request` call either reaches the rate-limit sleep with
duration `max(SLEEP_MIN, sleep_time)` or raises before the sleep
statement. -/
theorem makeRequest_slept_or_error (s : Sender) (pub : Bool) (outcome : ReqOutcome) :
    (s.makeRequest pub outcome).slept = some (max SLEEP_MIN s.sleepTime) ∨
    ((s.makeRequest pub outcome).slept = none ∧
      ∃ e, (s.makeRequest pub outcome).result = Except.error e) := by
  cases outcome with
  | timeout msg => exact Or.inr ⟨rfl, _, rfl⟩
  | response status body errText =>
      simp only [Sender.makeRequest]
      split
      · cases body with
        | none => exact Or.inr ⟨rfl, _, rfl⟩
        | some res =>
            rcases hdesc : extractDescription res with e | desc <;> simp [hdesc]
      · split
        · cases body with
          | none => simp
          | some res =>
              rcases hc : res.pyContains "response" with e | b
              · simp [hc]
              · simp [hc]
                cases b
                · simp
                · rcases hs : res.pySubscript "response" with e | v <;> simp [hs]
        · split
          · simp
          · simp

/-! ## Claim theorems -/

/-- C1: the claim says the `authorization` header is present and unchanged
after every `public_api=True` call, also when the call raises.  The code
restores the header only after the `try` block, so on the `Timeout` and
`HTTPError` paths the raise inside the handler skips the restoration: a
session that held `authorization` before the call has lost it after either
error, while the claim (and the spec's invariant) require it back. -/
theorem makeRequest_public_error_drops_authorization :
    senderEx.headers.lookup "authorization" = some "Bearer tok" ∧
    (senderEx.makeRequest true (ReqOutcome.timeout "t")).headers.lookup "authorization" = none ∧
    (senderEx.makeRequest true (ReqOutcome.timeout "t")).result =
      Except.error (PyError.timeout "Request timed out:\nt") ∧
    (senderEx.makeRequest true (ReqOutcome.response 403
        (some (Json.obj [("meta", Json.obj [("message", Json.str "invalid token")])]))
        "403 Client Error")).headers.lookup "authorization" = none ∧
    (senderEx.makeRequest true (ReqOutcome.response 403
        (some (Json.obj [("meta", Json.obj [("message", Json.str "invalid token")])]))
        "403 Client Error")).result =
      Except.error (PyError.httpError 403 "403 Client Error\ninvalid token") :=
  ⟨rfl, rfl, rfl, rfl, rfl⟩

/-- C2 (counterexample): with no token and a `public_api`-capable operation,
a caller who passes `public_api=None` has not passed `public_api=True`, yet
`kwargs.get("public_api", False) is False` is false for `None`, so the
wrapper invokes the operation instead of raising `TokenRequiredError`. -/
theorem check_token_public_api_none_counterexample :
    check_token none true [("public_api", Json.null)] = GuardResult.invoked ∧
    check_token none true [("public_api", Json.null)] ≠
      GuardResult.raised (some public_api_msg) := by
  refine ⟨rfl, ?_⟩
  intro h
  exact GuardResult.noConfusion h

/-- C2 (amended): with no access token and a `public_api`-capable operation,
the wrapper raises `TokenRequiredError` with the instructing message exactly
when the `public_api` keyword value (defaulting to `False`) is the exact
boolean `False`, and invokes the wrapped operation for every other value —
in particular for `True`, but also for `None` or any truthy non-`True`
value. -/
theorem check_token_public_api_is_false_iff (kwargs : List (String × Json)) :
    (check_token none true kwargs = GuardResult.raised (some public_api_msg) ↔
      ((kwargs.lookup "public_api").getD (Json.bool false)).isPyFalse = true) ∧
    (check_token none true kwargs = GuardResult.invoked ↔
      ((kwargs.lookup "public_api").getD (Json.bool false)).isPyFalse = false) := by
  rcases hp : ((kwargs.lookup "public_api").getD (Json.bool false)).isPyFalse with _ | _
  · simp [check_token, hp]
  · simp [check_token, hp]

/-- C3 (counterexample): a 403 response whose JSON body has a truthy `meta`
object without a `message` field makes the handler's
`res['meta']['message']` raise a `KeyError`, so no `HTTPError` is raised at
all — contradicting the claim that missing fields never crash the error
translation. -/
theorem makeRequest_meta_missing_message_counterexample :
    (senderEx.makeRequest false (ReqOutcome.response 403
        (some (Json.obj [("meta", Json.obj [("status", Json.num 403)])]))
        "403 Client Error")).result =
      Except.error (PyError.keyError "message") ∧
    (senderEx.makeRequest false (ReqOutcome.response 403
        (some (Json.obj [("meta", Json.obj [("status", Json.num 403)])]))
        "403 Client Error")).result ≠
      Except.error (PyError.httpError 403 "403 Client Error") := by
  refine ⟨rfl, ?_⟩
  intro h
  have h' : (Except.error (PyError.keyError "message") : Except PyError PyRet) =
      Except.error (PyError.httpError 403 "403 Client Error") := h
  simp at h'

/-- C3 (amended): for a 4xx/5xx response whose JSON body is an object, the
raised `HTTPError` message is the original error description followed by
`meta.message` when the `meta` field is truthy and carries a `message`
(but a truthy `meta` without a `message` key raises `KeyError` instead of
`HTTPError`), else by `error_description` when that field holds a truthy
string, and by nothing when neither field yields a description. -/
theorem makeRequest_httpError_description (s : Sender) (pub : Bool) (status : Nat)
    (errText : String) (kvs : List (String × Json)) (h4 : 400 ≤ status) (h6 : status < 600) :
    (∀ mkvs msg, kvs.lookup "meta" = some (Json.obj mkvs) → mkvs ≠ [] →
        mkvs.lookup "message" = some (Json.str msg) → msg ≠ "" →
        (s.makeRequest pub (ReqOutcome.response status (some (Json.obj kvs)) errText)).result =
          Except.error (PyError.httpError status (errText ++ "\n" ++ msg))) ∧
    (∀ mkvs, kvs.lookup "meta" = some (Json.obj mkvs) → mkvs ≠ [] →
        mkvs.lookup "message" = none →
        (s.makeRequest pub (ReqOutcome.response status (some (Json.obj kvs)) errText)).result =
          Except.error (PyError.keyError "message")) ∧
    (∀ d, ((kvs.lookup "meta").getD Json.null).pyTruthy = false →
        kvs.lookup "error_description" = some (Json.str d) → d ≠ "" →
        (s.makeRequest pub (ReqOutcome.response status (some (Json.obj kvs)) errText)).result =
          Except.error (PyError.httpError status (errText ++ "\n" ++ d))) ∧
    (((kvs.lookup "meta").getD Json.null).pyTruthy = false →
        kvs.lookup "error_description" = none →
        (s.makeRequest pub (ReqOutcome.response status (some (Json.obj kvs)) errText)).result =
          Except.error (PyError.httpError status errText)) := by
  refine ⟨?_, ?_, ?_, ?_⟩
  · intro mkvs msg hm hne hmsg hmsgne
    have htr : (Json.obj mkvs).pyTruthy = true := by
      rcases mkvs with _ | ⟨hd, tl⟩
      · exact absurd rfl hne
      · rfl
    have hdesc : extractDescription (Json.obj kvs) = Except.ok (Json.str msg) := by
      simp only [extractDescription, Json.pyGet, Json.pySubscript, hm, Option.getD_some, htr,
        if_true, hmsg]
    have htrmsg : (Json.str msg).pyTruthy = true := by
      simp only [Json.pyTruthy, bne_iff_ne, ne_eq, hmsgne, not_false_eq_true]
    simp only [Sender.makeRequest, hdesc, htrmsg, if_true, if_pos (And.intro h4 h6),
      Json.pyStr, String.append_assoc]
  · intro mkvs hm hne hmsg
    have htr : (Json.obj mkvs).pyTruthy = true := by
      rcases mkvs with _ | ⟨hd, tl⟩
      · exact absurd rfl hne
      · rfl
    have hdesc : extractDescription (Json.obj kvs) =
        Except.error (PyError.keyError "message") := by
      simp only [extractDescription, Json.pyGet, Json.pySubscript, hm, Option.getD_some, htr,
        if_true, hmsg]
    simp only [Sender.makeRequest, hdesc, if_pos (And.intro h4 h6)]
  · intro d hm0 hd hdne
    have hdesc : extractDescription (Json.obj kvs) = Except.ok (Json.str d) := by
      simp only [extractDescription, Json.pyGet, hm0, Bool.false_eq_true, if_false, hd,
        Option.getD_some]
    have htrd : (Json.str d).pyTruthy = true := by
      simp only [Json.pyTruthy, bne_iff_ne, ne_eq, hdne, not_false_eq_true]
    simp only [Sender.makeRequest, hdesc, htrd, if_true, if_pos (And.intro h4 h6),
      Json.pyStr, String.append_assoc]
  · intro hm0 hd
    have hdesc : extractDescription (Json.obj kvs) = Except.ok Json.null := by
      simp only [extractDescription, Json.pyGet, hm0, Bool.false_eq_true, if_false, hd,
        Option.getD_none]
    simp only [Sender.makeRequest, hdesc, if_pos (And.intro h4 h6), Json.pyTruthy,
      Bool.false_eq_true, if_false, String.append_empty]

/-- C3 (witness): a 403 body carrying `meta.message = "invalid token"`
appends that description, and a 500 body that is an empty JSON object
raises an `HTTPError` with no appended description. -/
theorem makeRequest_httpError_description_witness :
    (senderEx.makeRequest false (ReqOutcome.response 403
        (some (Json.obj [("meta", Json.obj [("message", Json.str "invalid token")])]))
        "403 Client Error: Forbidden")).result =
      Except.error (PyError.httpError 403
        ("403 Client Error: Forbidden" ++ "\n" ++ "invalid token")) ∧
    (senderEx.makeRequest false (ReqOutcome.response 500 (some (Json.obj []))
        "500 Server Error")).result =
      Except.error (PyError.httpError 500 "500 Server Error") :=
  ⟨(makeRequest_httpError_description senderEx false 403 "403 Client Error: Forbidden"
        [("meta", Json.obj [("message", Json.str "invalid token")])] (by omega) (by omega)).1
      [("message", Json.str "invalid token")] "invalid token" rfl (by simp) rfl (by decide),
   (makeRequest_httpError_description senderEx false 500 "500 Server Error" []
        (by omega) (by omega)).2.2.2 rfl rfl⟩

/-- C4 (counterexample): a status-200 response whose parsed JSON body is the
number `5` has no top-level `response` key, so the claim says the body is
returned unchanged; the code evaluates `"response" in res` on a non-iterable
value and raises `TypeError` instead. -/
theorem makeRequest_nonobject_body_counterexample :
    (senderEx.makeRequest false (ReqOutcome.response 200 (some (Json.num 5)) "")).result =
      Except.error PyError.typeError ∧
    (senderEx.makeRequest false (ReqOutcome.response 200 (some (Json.num 5)) "")).result ≠
      Except.ok (PyRet.obj (Json.num 5)) := by
  refine ⟨rfl, ?_⟩
  intro h
  exact Except.noConfusion h

/-- C4 (amended): on the success path, a status-200 response whose JSON
object body binds a top-level `response` key returns that nested value; a
status-200 object body without that key is returned whole; a status-204
response returns the literal integer 204 regardless of body content.
(Non-object 200 bodies can instead raise `TypeError`, as the counterexample
shows.) -/
theorem makeRequest_success_envelope (s : Sender) (pub : Bool) (errText : String) :
    (∀ kvs v, kvs.lookup "response" = some v →
        (s.makeRequest pub (ReqOutcome.response 200 (some (Json.obj kvs)) errText)).result =
          Except.ok (PyRet.obj v)) ∧
    (∀ kvs, kvs.lookup "response" = none →
        (s.makeRequest pub (ReqOutcome.response 200 (some (Json.obj kvs)) errText)).result =
          Except.ok (PyRet.obj (Json.obj kvs))) ∧
    (∀ body, (s.makeRequest pub (ReqOutcome.response 204 body errText)).result =
        Except.ok (PyRet.int 204)) := by
  refine ⟨?_, ?_, ?_⟩
  · intro kvs v h
    have hc : (Json.obj kvs).pyContains "response" = Except.ok true := by
      simp only [Json.pyContains]
      rw [lookup_some_any kvs "response" v h]
    have hs : (Json.obj kvs).pySubscript "response" = Except.ok v := by
      simp only [Json.pySubscript, h]
    simp only [Sender.makeRequest, hc, hs]
    rfl
  · intro kvs h
    have hc : (Json.obj kvs).pyContains "response" = Except.ok false := by
      simp only [Json.pyContains]
      rw [lookup_none_any kvs "response" h]
    simp only [Sender.makeRequest, hc]
    rfl
  · intro body
    rfl

/-- C4 (witness): the three success cases at concrete inputs — an enveloped
body, a bare object body, and a 204 with an ignored body. -/
theorem makeRequest_success_envelope_witness :
    (senderEx.makeRequest false (ReqOutcome.response 200
        (some (Json.obj [("response", Json.num 7)])) "")).result =
      Except.ok (PyRet.obj (Json.num 7)) ∧
    (senderEx.makeRequest false (ReqOutcome.response 200
        (some (Json.obj [("a", Json.num 1)])) "")).result =
      Except.ok (PyRet.obj (Json.obj [("a", Json.num 1)])) ∧
    (senderEx.makeRequest false (ReqOutcome.response 204 (some (Json.num 1)) "")).result =
      Except.ok (PyRet.int 204) :=
  ⟨(makeRequest_success_envelope senderEx false "").1 [("response", Json.num 7)]
      (Json.num 7) rfl,
   (makeRequest_success_envelope senderEx false "").2.1 [("a", Json.num 1)] rfl,
   (makeRequest_success_envelope senderEx false "").2.2 (some (Json.num 1))⟩

/-- C5: a response whose status passes `raise_for_status` (outside 400–599)
but is neither 200 nor 204 reaches the final branch, which raises the
internal-invariant `AssertionError`; the error is the call's result and is
neither swallowed nor retried. -/
theorem makeRequest_unexpected_status_asserts (s : Sender) (pub : Bool) (status : Nat)
    (body : Option Json) (errText : String) (hrange : ¬(400 ≤ status ∧ status < 600))
    (h200 : status ≠ 200) (h204 : status ≠ 204) :
    (s.makeRequest pub (ReqOutcome.response status body errText)).result =
      Except.error (PyError.assertionError "Response status code was neither 200, nor 204!") := by
  simp only [Sender.makeRequest]
  rw [if_neg hrange, if_neg h200, if_neg h204]

/-- C5 (witness): a 201 response triggers the assertion error. -/
theorem makeRequest_unexpected_status_asserts_witness :
    ¬(400 ≤ 201 ∧ 201 < 600) ∧ (201 : Nat) ≠ 200 ∧ (201 : Nat) ≠ 204 ∧
    (senderEx.makeRequest true (ReqOutcome.response 201 none "")).result =
      Except.error (PyError.assertionError "Response status code was neither 200, nor 204!") :=
  ⟨by omega, by omega, by omega,
    makeRequest_unexpected_status_asserts senderEx true 201 none "" (by omega)
      (by omega) (by omega)⟩

/-- C6: an operation without `public_api` among its declared parameters,
called with no access token, always raises `TokenRequiredError` (with no
message) and never invokes the wrapped operation, for every set of keyword
arguments. -/
theorem check_token_without_public_param_raises (kwargs : List (String × Json)) :
    check_token none false kwargs = GuardResult.raised none ∧
    check_token none false kwargs ≠ GuardResult.invoked := by
  refine ⟨rfl, ?_⟩
  intro h
  exact GuardResult.noConfusion h

/-- C7: a `public_api=False` call leaves the session headers exactly as they
were, on every outcome — success, timeout, HTTP error, or the assertion
branch — so the `authorization` entry is never removed. -/
theorem makeRequest_private_leaves_headers (s : Sender) (outcome : ReqOutcome) :
    (s.makeRequest false outcome).headers = s.headers := by
  cases outcome with
  | timeout msg => rfl
  | response status body errText =>
      simp only [Sender.makeRequest]
      split
      · cases body with
        | none => rfl
        | some res =>
            rcases hdesc : extractDescription res with e | desc <;> simp [hdesc]
      · split
        · cases body with
          | none => simp
          | some res =>
              rcases hc : res.pyContains "response" with e | b
              · simp [hc]
              · simp [hc]
                cases b
                · simp
                · rcases hs : res.pySubscript "response" with e | v <;> simp [hs]
        · split
          · simp
          · simp

/-- C8: every call of `_make_request` that returns a value (rather than
raising) has performed the rate-limit sleep of exactly
`max(SLEEP_MIN, sleep_time)` seconds, with `SLEEP_MIN = 0.2`, so no
configured `sleep_time` can go below the floor. -/
theorem makeRequest_return_sleeps_floor (s : Sender) (pub : Bool) (outcome : ReqOutcome)
    (v : PyRet) (h : (s.makeRequest pub outcome).result = Except.ok v) :
    (s.makeRequest pub outcome).slept = some (max SLEEP_MIN s.sleepTime) := by
  rcases makeRequest_slept_or_error s pub outcome with h1 | ⟨_, e, h2⟩
  · exact h1
  · rw [h] at h2
    exact Except.noConfusion h2

/-- C8 (witness): a 204 completion sleeps `max(SLEEP_MIN, sleep_time)`. -/
theorem makeRequest_return_sleeps_floor_witness :
    (senderEx.makeRequest false (ReqOutcome.response 204 none "")).slept =
      some (max SLEEP_MIN senderEx.sleepTime) :=
  makeRequest_return_sleeps_floor senderEx false (ReqOutcome.response 204 none "")
    (PyRet.int 204) rfl

/-- C9: a transport-level timeout is re-raised as a `Timeout` whose message
is the text `Request timed out:` followed by the original exception's
description. -/
theorem makeRequest_timeout_wraps_message (s : Sender) (pub : Bool) (msg : String) :
    (s.makeRequest pub (ReqOutcome.timeout msg)).result =
      Except.error (PyError.timeout ("Request timed out:\n" ++ msg)) := by
  cases pub <;> rfl

/-- C10: a `public_api=True` call on a sender constructed with an access
token, receiving a 2xx status other than 200 and 204, restores the removed
`authorization` header and performs the `max(SLEEP_MIN, sleep_time)` sleep
before the internal-invariant `AssertionError` is produced — cleanup and
rate limiting happen on this error path, unlike the `Timeout`/`HTTPError`
paths. -/
theorem makeRequest_public_assert_restores_then_raises (tok fmt : String) (tmo slp : ℚ)
    (status : Nat) (body : Option Json) (errText : String) (h2 : 200 ≤ status)
    (h3 : status < 300) (h200 : status ≠ 200) (h204 : status ≠ 204) :
    ((Sender.init (some tok) fmt tmo slp).makeRequest true
        (ReqOutcome.response status body errText)).result =
      Except.error (PyError.assertionError "Response status code was neither 200, nor 204!") ∧
    ((Sender.init (some tok) fmt tmo slp).makeRequest true
        (ReqOutcome.response status body errText)).headers.lookup "authorization" =
      some ("Bearer " ++ tok) ∧
    ((Sender.init (some tok) fmt tmo slp).makeRequest true
        (ReqOutcome.response status body errText)).slept = some (max SLEEP_MIN slp) := by
  have hrange : ¬(400 ≤ status ∧ status < 600) := by omega
  have hlook : List.lookup "authorization" (Sender.init (some tok) fmt tmo slp).headers =
      some ("Bearer " ++ tok) := rfl
  have herase : Headers.eraseKey (Sender.init (some tok) fmt tmo slp).headers "authorization" =
      [("application", "LyricsGenius"),
       ("User-Agent", "https://github.com/johnwmillr/LyricsGenius")] := rfl
  simp only [Sender.makeRequest, hlook, herase, if_true]
  rw [if_neg hrange, if_neg h200, if_neg h204, if_pos (bearer_ne_empty tok)]
  refine ⟨rfl, rfl, rfl⟩

/-- C10 (witness): a 201 response on a public call restores the header and
records the sleep before the assertion error. -/
theorem makeRequest_public_assert_restores_then_raises_witness :
    ((Sender.init (some "tok") "plain" 5 (1/2)).makeRequest true
        (ReqOutcome.response 201 none "")).result =
      Except.error (PyError.assertionError "Response status code was neither 200, nor 204!") ∧
    ((Sender.init (some "tok") "plain" 5 (1/2)).makeRequest true
        (ReqOutcome.response 201 none "")).headers.lookup "authorization" =
      some ("Bearer " ++ "tok") ∧
    ((Sender.init (some "tok") "plain" 5 (1/2)).makeRequest true
        (ReqOutcome.response 201 none "")).slept = some (max SLEEP_MIN (1/2)) :=
  makeRequest_public_assert_restores_then_raises "tok" "plain" 5 (1/2) 201 none ""
    (by omega) (by omega) (by omega) (by omega)
